import Mathlib

/-!
Verification of the COMICS ice-volume model (comics.py): a shallow embedding
of the equilibrium curves, rate model, and time-evolution integrator, with
theorems about the step rule, the recorded series and the dual-run transform.
Real-valued quantities of the script are modelled as rationals where the
source uses only field operations, and as reals where a square root occurs.
-/

/-- The C-Veq relation selector (comics.py, `eq_profile`):
simple, hysteresis, PISM, custom. -/
inductive EqProfile where
  | simple
  | hysteresis
  | PISM
  | custom
deriving DecidableEq

/-- The initial ice volume selector (comics.py, `start_option`):
zero (the default custom start), warm, cold. -/
inductive StartOption where
  | zero
  | warm
  | cold
deriving DecidableEq

/-- The control-parameter evolution selector for the second run
(comics.py, `second_run_option`): same, amplitude_reduced, period_reduced. -/
inductive SecondRunOption where
  | same
  | amplitude_reduced
  | period_reduced
deriving DecidableEq

/-- Top of the hysteresis curve as a function of the control parameter,
for each C-Veq relation (comics.py lines 73-133, `equilibrium_icevolume_top`). -/
def equilibrium_icevolume_top : EqProfile → ℚ → ℚ
  | EqProfile.simple, control => 1 - control
  | EqProfile.hysteresis, control =>
      if control > 0.5 then (1 - control) * 1.4
      else 1 - control * 0.6
  | EqProfile.PISM, control =>
      if control < 0.2671 then
        18.1 - (18.1 - 16.7) * control / 0.2671
      else if 0.2671 ≤ control ∧ control < 0.5342 then
        16.7 - (16.7 - 6.5) * (control - 0.2671) / 0.2671
      else if 0.5342 ≤ control ∧ control < 0.7671 then
        6.5 - (6.5 - 3.3) * (control - 0.5342) / 0.2329
      else
        3.3 - (3.3 - 1.8) * (control - 0.7671) / 0.2329
  | EqProfile.custom, control => 1 - control

/-- Bottom of the hysteresis curve as a function of the control parameter,
for each C-Veq relation (comics.py lines 77-130, `equilibrium_icevolume_bottom`). -/
def equilibrium_icevolume_bottom : EqProfile → ℚ → ℚ
  | EqProfile.simple, control => 1 - control
  | EqProfile.hysteresis, control =>
      if control > 0.5 then (1 - control) * 0.6
      else 1 - control * 1.4
  | EqProfile.PISM, control =>
      if control < 0.2671 then
        18.1 - (18.1 - 15.1) * control / 0.2671
      else if 0.2671 ≤ control ∧ control < 0.5342 then
        15.1 - (15.1 - 5.1) * (control - 0.2671) / 0.2671
      else if 0.5342 ≤ control ∧ control < 0.7671 then
        5.1 - (5.1 - 2.2) * (control - 0.5342) / 0.2329
      else
        2.2 - (2.2 - 1.3) * (control - 0.7671) / 0.2329
  | EqProfile.custom, control => 1 - control

/-- Claim C3: for every equilibrium family and every control value in
the interval from 0 to 1, the top equilibrium bound is at least the
bottom equilibrium bound. -/
theorem C3_bound_ordering (p : EqProfile) (c : ℚ) (h0 : 0 ≤ c) (h1 : c ≤ 1) :
    equilibrium_icevolume_bottom p c ≤ equilibrium_icevolume_top p c := by
  cases p
  case simple =>
    simp [equilibrium_icevolume_top, equilibrium_icevolume_bottom]
  case hysteresis =>
    simp only [equilibrium_icevolume_top, equilibrium_icevolume_bottom]
    split_ifs with h <;> nlinarith
  case PISM =>
    simp only [equilibrium_icevolume_top, equilibrium_icevolume_bottom]
    split_ifs with hA hB hC
    · norm_num [div_eq_mul_inv]
      linarith
    · obtain ⟨hB1, hB2⟩ := hB
      norm_num [div_eq_mul_inv]
      linarith
    · obtain ⟨hC1, hC2⟩ := hC
      norm_num [div_eq_mul_inv]
      linarith
    · norm_num [div_eq_mul_inv]
      linarith
  case custom =>
    simp [equilibrium_icevolume_top, equilibrium_icevolume_bottom]

/-- Claim C3, witness: the bound ordering instantiated at the PISM family
and the concrete control value one half. -/
theorem C3_bound_ordering_witness :
    equilibrium_icevolume_bottom EqProfile.PISM (1/2) ≤
      equilibrium_icevolume_top EqProfile.PISM (1/2) :=
  C3_bound_ordering EqProfile.PISM (1/2) (by norm_num) (by norm_num)

/-- Growth rate of the ice volume (comics.py lines 164-168, `growth_rate`):
in PISM mode a base rate plus a square-root term in the distance of the
bottom bound above the current volume shifted by 9, floored at the base by
a max with 0; otherwise the configured constant `set_growth_rate`. -/
noncomputable def growth_rate (p : EqProfile) (set_growth_rate : ℝ)
    (control icevolume equilibrium_icesheet_bottom : ℝ) : ℝ :=
  if p = EqProfile.PISM then
    0.004 + 0.012 * Real.sqrt (max 0 (equilibrium_icesheet_bottom - icevolume - 9))
  else
    set_growth_rate

/-- Decay rate of the ice volume (comics.py lines 170-174, `decay_rate`):
in PISM mode a base rate plus a term linear in the overshoot of the current
volume above the top bound (with no floor); otherwise the configured
constant `set_decay_rate`. -/
noncomputable def decay_rate (p : EqProfile) (set_decay_rate : ℝ)
    (control icevolume equilibrium_icesheet_top : ℝ) : ℝ :=
  if p = EqProfile.PISM then
    0.01 + (icevolume - equilibrium_icesheet_top) * 0.01
  else
    set_decay_rate

/-- Claim C4: in PISM (state-dependent) mode the growth rate equals
0.004 + 0.012 * sqrt (max 0 (bottom - volume - 9)) for every input, and
it equals exactly the base rate 0.004 whenever the excess
bottom - volume - 9 is non-positive. -/
theorem C4_growth_rate_pism (sgr c v b : ℝ) :
    growth_rate EqProfile.PISM sgr c v b =
      0.004 + 0.012 * Real.sqrt (max 0 (b - v - 9)) ∧
    (b - v - 9 ≤ 0 → growth_rate EqProfile.PISM sgr c v b = 0.004) := by
  constructor
  · simp [growth_rate]
  · intro h
    rw [growth_rate, if_pos rfl, max_eq_left h, Real.sqrt_zero]
    ring

/-- Claim C4, witness: at control 0, volume 0, bottom bound 0 the excess is
negative and the PISM growth rate evaluates to the base rate 0.004. -/
theorem C4_growth_rate_pism_witness :
    growth_rate EqProfile.PISM 0.002 0 0 0 = 0.004 :=
  (C4_growth_rate_pism 0.002 0 0 0).2 (by norm_num)

/-- Claim C5, counterexample: the PISM decay rate is not floored at its
base rate 0.01 and is not strictly positive for all inputs: at volume 0 and
top bound 2 it evaluates to -0.01, and at volume 0 and top bound 0.5 it
evaluates to 0.005, strictly below the base rate. -/
theorem C5_rate_positivity_counterexample :
    decay_rate EqProfile.PISM 0.004 0 0 2 = -0.01 ∧
    ¬ 0 < decay_rate EqProfile.PISM 0.004 0 0 2 ∧
    decay_rate EqProfile.PISM 0.004 0 0 0.5 < 0.01 := by
  refine ⟨?_, ?_, ?_⟩ <;> rw [decay_rate, if_pos rfl] <;> norm_num

/-- Claim C5, amended: the growth rate is strictly positive for all inputs
whenever the configured constant growth rate is positive, and the decay
rate is strictly positive whenever the configured constant decay rate is
positive and, in PISM mode, the overshoot volume - top exceeds -1
(in particular whenever the integrator invokes it, with volume > top);
the PISM decay rate has no floor at its base rate. -/
theorem C5_rate_positivity (p : EqProfile) (sgr sdr c v b tp : ℝ)
    (hg : 0 < sgr) (hd : 0 < sdr) :
    0 < growth_rate p sgr c v b ∧
    (-1 < v - tp → 0 < decay_rate p sdr c v tp) := by
  constructor
  · by_cases hp : p = EqProfile.PISM
    · rw [growth_rate, if_pos hp]
      nlinarith [Real.sqrt_nonneg (max 0 (b - v - 9))]
    · rw [growth_rate, if_neg hp]
      exact hg
  · intro hover
    by_cases hp : p = EqProfile.PISM
    · rw [decay_rate, if_pos hp]
      nlinarith
    · rw [decay_rate, if_neg hp]
      exact hd

/-- Claim C5, witness: positivity of both rates instantiated at the simple
family with the configured default rates and concrete arguments. -/
theorem C5_rate_positivity_witness :
    0 < growth_rate EqProfile.simple 0.002 1 1 1 ∧
    ((-1:ℝ) < 1 - 1 → 0 < decay_rate EqProfile.simple 0.004 1 1 1) :=
  C5_rate_positivity EqProfile.simple 0.002 0.004 1 1 1 1 (by norm_num) (by norm_num)

/-- One step of the time-evolution integrator (comics.py lines 248-253):
decay when the previous volume strictly exceeds the top bound, growth when
it is strictly below the bottom bound, hold otherwise. The rate-model entry
points are passed as functions of (control, previous volume, bound), as in
the source calls. -/
def icevolumeStep (dRate gRate : ℚ → ℚ → ℚ → ℚ)
    (c prev eqtop eqbot : ℚ) : ℚ :=
  if prev > eqtop then prev - dRate c prev eqtop
  else if prev < eqbot then prev + gRate c prev eqbot
  else prev

/-- Claim C1: one integrator step takes the decay branch exactly when the
previous volume strictly exceeds the top bound, the growth branch exactly
when it does not and the previous volume is strictly below the bottom
bound, and otherwise holds the volume exactly unchanged; with ordered
bounds, equality at either bound resolves to the hold branch. -/
theorem C1_step_rule (dRate gRate : ℚ → ℚ → ℚ → ℚ) (c prev eqtop eqbot : ℚ) :
    (eqtop < prev →
      icevolumeStep dRate gRate c prev eqtop eqbot = prev - dRate c prev eqtop) ∧
    (¬ eqtop < prev → prev < eqbot →
      icevolumeStep dRate gRate c prev eqtop eqbot = prev + gRate c prev eqbot) ∧
    (eqbot ≤ prev → prev ≤ eqtop →
      icevolumeStep dRate gRate c prev eqtop eqbot = prev) ∧
    (eqbot ≤ eqtop → prev = eqtop →
      icevolumeStep dRate gRate c prev eqtop eqbot = prev) ∧
    (eqbot ≤ eqtop → prev = eqbot →
      icevolumeStep dRate gRate c prev eqtop eqbot = prev) := by
  refine ⟨?_, ?_, ?_, ?_, ?_⟩
  · intro h
    rw [icevolumeStep, if_pos h]
  · intro h1 h2
    rw [icevolumeStep, if_neg h1, if_pos h2]
  · intro hb ht
    rw [icevolumeStep, if_neg (not_lt.mpr ht), if_neg (not_lt.mpr hb)]
  · intro hord heq
    subst heq
    rw [icevolumeStep, if_neg (lt_irrefl prev), if_neg (not_lt.mpr hord)]
  · intro hord heq
    subst heq
    rw [icevolumeStep, if_neg (not_lt.mpr hord), if_neg (lt_irrefl prev)]

/-- Claim C1, witness: with bottom bound 0, top bound 2 and previous volume
1 the hold branch applies and the volume is unchanged. -/
theorem C1_step_rule_witness :
    icevolumeStep (fun _ _ _ => 1) (fun _ _ _ => 1) 0 1 2 0 = 1 :=
  (C1_step_rule (fun _ _ _ => 1) (fun _ _ _ => 1) 0 1 2 0).2.2.1
    (by norm_num) (by norm_num)

/-- Claim C2: the step rule does not clamp to an equilibrium bound: from
volume 1.0, top bound 0.5 and a constant decay rate 0.6, one decay step
yields exactly 0.4, which lies strictly below the top bound, for any
bottom bound and any growth-rate model. -/
theorem C2_no_clamp (gRate : ℚ → ℚ → ℚ → ℚ) (c eqbot : ℚ) :
    icevolumeStep (fun _ _ _ => 0.6) gRate c 1.0 0.5 eqbot = 0.4 ∧
    (0.4 : ℚ) < 0.5 := by
  constructor
  · rw [icevolumeStep, if_pos (by norm_num : (1.0:ℚ) > 0.5)]
    norm_num
  · norm_num

/-- The configuration scalars and selectors of a run (comics.py lines
49-67), with the control-parameter evolution and the two rate-model entry
points abstracted as functions, as the spec treats them. -/
structure RunConfig where
  eq_profile : EqProfile
  start_option : StartOption
  time_max : ℕ
  timestep_length : ℚ
  ctl : ℕ → ℚ
  dRate : ℚ → ℚ → ℚ → ℚ
  gRate : ℚ → ℚ → ℚ → ℚ
  second_run_option : SecondRunOption
  start_option_2nd : StartOption
  period_reduction_factor : ℕ
  amplitude_reduction_factor : ℚ
  amplitude_center : ℚ
  multiply_decay : ℚ
  multiply_growth : ℚ

/-- Initial ice volume for a start option (comics.py lines 204-209):
warm 1.3, cold 23.0, otherwise 0.0. -/
def initial_icevolume : StartOption → ℚ
  | StartOption.warm => 1.3
  | StartOption.cold => 23.0
  | StartOption.zero => 0.0

/-- Value recorded in the time array at index t (comics.py lines 183-185
and 243): the literal 1 at index 0, t * timestep_length for t at least 1. -/
def time_rec (cfg : RunConfig) (t : ℕ) : ℚ :=
  if t = 0 then 1 else (t : ℚ) * cfg.timestep_length

/-- Value recorded in the control array at index t (comics.py lines
187-192 and 244): 0.0 at index 0 for a cold start and 1.0 otherwise,
the control-parameter evolution at t for t at least 1. -/
def control_rec (cfg : RunConfig) (t : ℕ) : ℚ :=
  if t = 0 then (if cfg.start_option = StartOption.cold then 0 else 1)
  else cfg.ctl t

/-- Value recorded in the top equilibrium array at index t (comics.py
lines 194-196 and 245): 0.0 at index 0, the top bound of the recorded
control value for t at least 1. -/
def eqtop_rec (cfg : RunConfig) (t : ℕ) : ℚ :=
  if t = 0 then 0
  else equilibrium_icevolume_top cfg.eq_profile (control_rec cfg t)

/-- Value recorded in the bottom equilibrium array at index t (comics.py
lines 198-200 and 246): 0.0 at index 0, the bottom bound of the recorded
control value for t at least 1. -/
def eqbot_rec (cfg : RunConfig) (t : ℕ) : ℚ :=
  if t = 0 then 0
  else equilibrium_icevolume_bottom cfg.eq_profile (control_rec cfg t)

/-- The transient ice volume at index t (comics.py lines 202-209 and
248-253): the initial volume at index 0, then one integrator step per
index, driven by the control value and the equilibrium bounds at the
current index. -/
def icevolume_rec (cfg : RunConfig) : ℕ → ℚ
  | 0 => initial_icevolume cfg.start_option
  | t + 1 =>
      icevolumeStep cfg.dRate cfg.gRate (cfg.ctl (t + 1))
        (icevolume_rec cfg t)
        (equilibrium_icevolume_top cfg.eq_profile (cfg.ctl (t + 1)))
        (equilibrium_icevolume_bottom cfg.eq_profile (cfg.ctl (t + 1)))

/-- The recorded result series of the primary run, each of length
time_max (comics.py section 2 initialization and section 3 loop). -/
structure RunResult where
  time : List ℚ
  control_profile : List ℚ
  equilibrium_profile_top : List ℚ
  equilibrium_profile_bottom : List ℚ
  icevolume : List ℚ

/-- The primary run: fills each of the five series at indices
0 to time_max - 1 (comics.py sections 2 and 3). -/
def run (cfg : RunConfig) : RunResult where
  time := (List.range cfg.time_max).map (time_rec cfg)
  control_profile := (List.range cfg.time_max).map (control_rec cfg)
  equilibrium_profile_top := (List.range cfg.time_max).map (eqtop_rec cfg)
  equilibrium_profile_bottom := (List.range cfg.time_max).map (eqbot_rec cfg)
  icevolume := (List.range cfg.time_max).map (icevolume_rec cfg)

/-- The control value computed for the second run at a loop index t of at
least 1 (comics.py lines 257-265): amplitude rescale, period rescale or
identity on the primary control evolution, followed by a phase flip
when the two runs' start options differ. -/
def control_2nd_value (cfg : RunConfig) (t : ℕ) : ℚ :=
  let base :=
    if cfg.second_run_option = SecondRunOption.amplitude_reduced then
      cfg.amplitude_reduction_factor * cfg.ctl t +
        (cfg.amplitude_center - cfg.amplitude_reduction_factor / 2)
    else if cfg.second_run_option = SecondRunOption.period_reduced then
      cfg.ctl (cfg.period_reduction_factor * t)
    else
      cfg.ctl t
  if ¬ cfg.start_option = cfg.start_option_2nd then base * (-1) + 1
  else base

/-- Value recorded in the second run's control array at index t
(comics.py lines 213-218 and 257-265). -/
def control_2nd_rec (cfg : RunConfig) (t : ℕ) : ℚ :=
  if t = 0 then (if cfg.start_option_2nd = StartOption.cold then 0 else 1)
  else control_2nd_value cfg t

/-- Value recorded in the second run's top equilibrium array at index t
(comics.py lines 220-222 and 267). -/
def eqtop_2nd_rec (cfg : RunConfig) (t : ℕ) : ℚ :=
  if t = 0 then 0
  else equilibrium_icevolume_top cfg.eq_profile (control_2nd_rec cfg t)

/-- Value recorded in the second run's bottom equilibrium array at index t
(comics.py lines 224-226 and 268). -/
def eqbot_2nd_rec (cfg : RunConfig) (t : ℕ) : ℚ :=
  if t = 0 then 0
  else equilibrium_icevolume_bottom cfg.eq_profile (control_2nd_rec cfg t)

/-- The second run's transient ice volume at index t (comics.py lines
228-235 and 270-275): as the primary run but driven by the transformed
control value, with the rate-model outputs multiplied by the configured
second-run factors. -/
def icevolume_2nd_rec (cfg : RunConfig) : ℕ → ℚ
  | 0 => initial_icevolume cfg.start_option_2nd
  | t + 1 =>
      icevolumeStep
        (fun c v b => cfg.multiply_decay * cfg.dRate c v b)
        (fun c v b => cfg.multiply_growth * cfg.gRate c v b)
        (control_2nd_rec cfg (t + 1))
        (icevolume_2nd_rec cfg t)
        (equilibrium_icevolume_top cfg.eq_profile (control_2nd_rec cfg (t + 1)))
        (equilibrium_icevolume_bottom cfg.eq_profile (control_2nd_rec cfg (t + 1)))

/-- The recorded result series of the second run, each of length time_max
(comics.py second-run initialization and loop body). -/
structure SecondRunResult where
  control_2nd : List ℚ
  equilibrium_profile_top_2nd : List ℚ
  equilibrium_profile_bottom_2nd : List ℚ
  icevolume_2nd : List ℚ

/-- The second run: fills each of its four series at indices
0 to time_max - 1 (comics.py second-run branches). -/
def runSecond (cfg : RunConfig) : SecondRunResult where
  control_2nd := (List.range cfg.time_max).map (control_2nd_rec cfg)
  equilibrium_profile_top_2nd := (List.range cfg.time_max).map (eqtop_2nd_rec cfg)
  equilibrium_profile_bottom_2nd := (List.range cfg.time_max).map (eqbot_2nd_rec cfg)
  icevolume_2nd := (List.range cfg.time_max).map (icevolume_2nd_rec cfg)

/-- Index lookup in a series built by mapping a value function over the
index range. -/
theorem range_map_get (f : ℕ → ℚ) (n t : ℕ) (h : t < n) :
    ((List.range n).map f).get? t = some (f t) := by
  rw [List.get?_map, List.get?_range h]
  rfl

/-- A concrete configuration with the script's default selectors
(simple family, zero start, constant rates) and a small horizon. -/
def cfgExample : RunConfig where
  eq_profile := EqProfile.simple
  start_option := StartOption.zero
  time_max := 3
  timestep_length := 1
  ctl := fun _ => 0.3
  dRate := fun _ _ _ => 0.004
  gRate := fun _ _ _ => 0.002
  second_run_option := SecondRunOption.same
  start_option_2nd := StartOption.zero
  period_reduction_factor := 2
  amplitude_reduction_factor := 0.5
  amplitude_center := 0.5
  multiply_decay := 1
  multiply_growth := 1

/-- Index lookup in the recorded time series. -/
theorem run_time_get (cfg : RunConfig) (t : ℕ) (h : t < cfg.time_max) :
    (run cfg).time.get? t = some (time_rec cfg t) :=
  range_map_get _ _ t h

/-- Index lookup in the recorded control series. -/
theorem run_control_get (cfg : RunConfig) (t : ℕ) (h : t < cfg.time_max) :
    (run cfg).control_profile.get? t = some (control_rec cfg t) :=
  range_map_get _ _ t h

/-- Index lookup in the recorded top equilibrium series. -/
theorem run_eqtop_get (cfg : RunConfig) (t : ℕ) (h : t < cfg.time_max) :
    (run cfg).equilibrium_profile_top.get? t = some (eqtop_rec cfg t) :=
  range_map_get _ _ t h

/-- Index lookup in the recorded bottom equilibrium series. -/
theorem run_eqbot_get (cfg : RunConfig) (t : ℕ) (h : t < cfg.time_max) :
    (run cfg).equilibrium_profile_bottom.get? t = some (eqbot_rec cfg t) :=
  range_map_get _ _ t h

/-- Index lookup in the second run's recorded control series. -/
theorem runSecond_control_get (cfg : RunConfig) (t : ℕ) (h : t < cfg.time_max) :
    (runSecond cfg).control_2nd.get? t = some (control_2nd_rec cfg t) :=
  range_map_get _ _ t h

/-- Claim C6, counterexample: with the default zero start option the
recorded control series holds 1.0 at index 0, not the sentinel 0.0. -/
theorem C6_sentinel_counterexample :
    (run cfgExample).control_profile.get? 0 = some 1 ∧
    ¬ (run cfgExample).control_profile.get? 0 = some 0 := by
  have h : (run cfgExample).control_profile.get? 0 = some (control_rec cfgExample 0) :=
    run_control_get cfgExample 0 (by decide)
  have h0 : control_rec cfgExample 0 = 1 := by
    simp [control_rec, cfgExample]
  rw [h, h0]
  simp

/-- Claim C6, amended: index 0 of both recorded equilibrium-bound series
holds the sentinel 0.0 for every start option, while index 0 of the
recorded control series holds 0.0 for a cold start and 1.0 otherwise. -/
theorem C6_index_zero (cfg : RunConfig) (h : 0 < cfg.time_max) :
    (run cfg).equilibrium_profile_top.get? 0 = some 0 ∧
    (run cfg).equilibrium_profile_bottom.get? 0 = some 0 ∧
    (run cfg).control_profile.get? 0 =
      some (if cfg.start_option = StartOption.cold then 0 else 1) := by
  refine ⟨?_, ?_, ?_⟩
  · rw [run_eqtop_get cfg 0 h]
    simp [eqtop_rec]
  · rw [run_eqbot_get cfg 0 h]
    simp [eqbot_rec]
  · rw [run_control_get cfg 0 h]
    simp [control_rec]

/-- Claim C6, witness: the index-0 values instantiated at a concrete
configuration with the zero start option. -/
theorem C6_index_zero_witness :
    (run cfgExample).equilibrium_profile_top.get? 0 = some 0 ∧
    (run cfgExample).equilibrium_profile_bottom.get? 0 = some 0 ∧
    (run cfgExample).control_profile.get? 0 =
      some (if cfgExample.start_option = StartOption.cold then 0 else 1) :=
  C6_index_zero cfgExample (by decide)

/-- An amplitude-rescale dual-run configuration whose two start options
differ (zero for the primary run, cold for the second). -/
def cfgFlip : RunConfig :=
  { cfgExample with
    second_run_option := SecondRunOption.amplitude_reduced,
    start_option_2nd := StartOption.cold }

/-- An amplitude-rescale dual-run configuration whose two start options
coincide. -/
def cfgAmp : RunConfig :=
  { cfgFlip with start_option_2nd := StartOption.zero }

/-- Claim C7, counterexample: in amplitude-rescale mode with factor 0.5,
center 0.5 and primary control value 0.3 but differing start options
(zero versus cold), the recorded second control value at index 1 is the
phase-flipped 0.6, not the plain rescaled value 0.4. -/
theorem C7_amplitude_counterexample :
    (runSecond cfgFlip).control_2nd.get? 1 = some 0.6 ∧
    ¬ (runSecond cfgFlip).control_2nd.get? 1 =
        some (0.5 * 0.3 + (0.5 - 0.5 / 2)) := by
  have h : (runSecond cfgFlip).control_2nd.get? 1 = some (control_2nd_rec cfgFlip 1) :=
    runSecond_control_get cfgFlip 1 (by decide)
  have hv : control_2nd_rec cfgFlip 1 = 0.6 := by
    simp [control_2nd_rec, control_2nd_value, cfgFlip, cfgExample]
    norm_num
  rw [h, hv]
  constructor
  · rfl
  · simp
    norm_num

/-- Claim C7, amended: in amplitude-rescale dual-run mode, when the two
runs' start options coincide (so that no phase flip applies), the recorded
second control value at every loop index equals
factor * control(t) + (center - factor / 2). -/
theorem C7_amplitude_rescale (cfg : RunConfig) (t : ℕ)
    (hopt : cfg.second_run_option = SecondRunOption.amplitude_reduced)
    (hso : cfg.start_option = cfg.start_option_2nd)
    (ht : 1 ≤ t) (htm : t < cfg.time_max) :
    (runSecond cfg).control_2nd.get? t =
      some (cfg.amplitude_reduction_factor * cfg.ctl t +
        (cfg.amplitude_center - cfg.amplitude_reduction_factor / 2)) := by
  have h0 : ¬ t = 0 := by omega
  rw [runSecond_control_get cfg t htm]
  simp only [control_2nd_rec, if_neg h0]
  simp [control_2nd_value, hopt, hso]

/-- Claim C7, witness: the amplitude-rescale transform at index 1 of a
concrete configuration with factor 0.5, center 0.5, constant primary
control 0.3 and coinciding start options. -/
theorem C7_amplitude_rescale_witness :
    (runSecond cfgAmp).control_2nd.get? 1 =
      some (cfgAmp.amplitude_reduction_factor * cfgAmp.ctl 1 +
        (cfgAmp.amplitude_center - cfgAmp.amplitude_reduction_factor / 2)) :=
  C7_amplitude_rescale cfgAmp 1 rfl rfl (by decide) (by decide)

/-- The concrete default configuration with a degenerate horizon of one
time step. -/
def cfgDegenerate : RunConfig :=
  { cfgExample with time_max := 1 }

/-- Claim C8, counterexample: a run with time_max equal to 1 is not
rejected; it returns a length-1 ice volume series holding only the
initial condition. -/
theorem C8_degenerate_horizon_counterexample :
    (run cfgDegenerate).icevolume = [0] ∧
    (run cfgDegenerate).icevolume.length = 1 := by
  constructor
  · show (List.range 1).map (icevolume_rec cfgDegenerate) = [0]
    rw [show List.range 1 = [0] from rfl]
    simp [icevolume_rec, initial_icevolume, cfgDegenerate, cfgExample]
    norm_num
  · simp [run, cfgDegenerate]

/-- Claim C8, amended: the code performs no validation of the horizon; a
run with time_max equal to 1 executes no evolution step and returns
series of length 1, the ice volume series holding only the initial
condition. -/
theorem C8_degenerate_horizon (cfg : RunConfig) (h : cfg.time_max = 1) :
    (run cfg).icevolume = [initial_icevolume cfg.start_option] ∧
    (run cfg).time.length = cfg.time_max ∧
    (run cfg).control_profile.length = cfg.time_max ∧
    (run cfg).equilibrium_profile_top.length = cfg.time_max ∧
    (run cfg).equilibrium_profile_bottom.length = cfg.time_max ∧
    (run cfg).icevolume.length = cfg.time_max := by
  refine ⟨?_, ?_, ?_, ?_, ?_, ?_⟩ <;>
    simp [run, h, icevolume_rec, show List.range 1 = [0] from rfl]

/-- Claim C8, witness: the degenerate-horizon behavior instantiated at the
concrete configuration with time_max equal to 1. -/
theorem C8_degenerate_horizon_witness :
    (run cfgDegenerate).icevolume = [initial_icevolume cfgDegenerate.start_option] ∧
    (run cfgDegenerate).time.length = cfgDegenerate.time_max ∧
    (run cfgDegenerate).control_profile.length = cfgDegenerate.time_max ∧
    (run cfgDegenerate).equilibrium_profile_top.length = cfgDegenerate.time_max ∧
    (run cfgDegenerate).equilibrium_profile_bottom.length = cfgDegenerate.time_max ∧
    (run cfgDegenerate).icevolume.length = cfgDegenerate.time_max :=
  C8_degenerate_horizon cfgDegenerate rfl

/-- Claim C9: the computation is deterministic: two runs whose
configurations agree component by component (equilibrium family, start
options, horizon, timestep length, control evolution, rate models and all
second-run settings) produce identical recorded series, for the primary
run and for the second run alike. -/
theorem C9_determinism (cfg cfg' : RunConfig)
    (h1 : cfg.eq_profile = cfg'.eq_profile)
    (h2 : cfg.start_option = cfg'.start_option)
    (h3 : cfg.time_max = cfg'.time_max)
    (h4 : cfg.timestep_length = cfg'.timestep_length)
    (h5 : ∀ t, cfg.ctl t = cfg'.ctl t)
    (h6 : ∀ c v b, cfg.dRate c v b = cfg'.dRate c v b)
    (h7 : ∀ c v b, cfg.gRate c v b = cfg'.gRate c v b)
    (h8 : cfg.second_run_option = cfg'.second_run_option)
    (h9 : cfg.start_option_2nd = cfg'.start_option_2nd)
    (h10 : cfg.period_reduction_factor = cfg'.period_reduction_factor)
    (h11 : cfg.amplitude_reduction_factor = cfg'.amplitude_reduction_factor)
    (h12 : cfg.amplitude_center = cfg'.amplitude_center)
    (h13 : cfg.multiply_decay = cfg'.multiply_decay)
    (h14 : cfg.multiply_growth = cfg'.multiply_growth) :
    run cfg = run cfg' ∧ runSecond cfg = runSecond cfg' := by
  have hcfg : cfg = cfg' := by
    cases cfg
    cases cfg'
    simp only [RunConfig.mk.injEq]
    exact ⟨h1, h2, h3, h4, funext h5,
      funext fun c => funext fun v => funext fun b => h6 c v b,
      funext fun c => funext fun v => funext fun b => h7 c v b,
      h8, h9, h10, h11, h12, h13, h14⟩
  rw [hcfg]
  exact ⟨rfl, rfl⟩

/-- Claim C9, witness: determinism instantiated at a concrete
configuration compared with itself. -/
theorem C9_determinism_witness :
    run cfgExample = run cfgExample ∧
    runSecond cfgExample = runSecond cfgExample :=
  C9_determinism cfgExample cfgExample rfl rfl rfl rfl (fun _ => rfl)
    (fun _ _ _ => rfl) (fun _ _ _ => rfl) rfl rfl rfl rfl rfl rfl rfl

/-- Claim C10: the recorded time axis is inconsistent at index 0: it holds
the literal 1 there regardless of the timestep length, while every index t
of at least 1 holds t * timestep_length; so index 0 never holds
0 * timestep_length, and with timestep length 1 indices 0 and 1 hold the
same value. -/
theorem C10_time_axis (cfg : RunConfig) (h2 : 2 ≤ cfg.time_max) :
    (run cfg).time.get? 0 = some 1 ∧
    (∀ t, 1 ≤ t → t < cfg.time_max →
      (run cfg).time.get? t = some ((t : ℚ) * cfg.timestep_length)) ∧
    ¬ (run cfg).time.get? 0 = some (0 * cfg.timestep_length) ∧
    (cfg.timestep_length = 1 → (run cfg).time.get? 0 = (run cfg).time.get? 1) := by
  have h0 : (run cfg).time.get? 0 = some 1 := by
    rw [run_time_get cfg 0 (by omega)]
    simp [time_rec]
  refine ⟨h0, ?_, ?_, ?_⟩
  · intro t ht1 ht2
    rw [run_time_get cfg t ht2]
    simp only [time_rec, if_neg (by omega : ¬ t = 0)]
  · rw [h0]
    simp
  · intro hL
    rw [h0, run_time_get cfg 1 (by omega)]
    simp [time_rec, hL]

/-- Claim C10, witness: the time axis of a concrete run with timestep
length 1, where indices 0 and 1 both hold the value 1. -/
theorem C10_time_axis_witness :
    (run cfgExample).time.get? 0 = some 1 ∧
    (run cfgExample).time.get? 0 = (run cfgExample).time.get? 1 :=
  ⟨(C10_time_axis cfgExample (by decide)).1,
   (C10_time_axis cfgExample (by decide)).2.2.2 rfl⟩
